import Mathlib

/-!
Shallow embedding of the perception-reasoning-action-feedback (PRAF) agent loop
implemented in `src/agent.py`, together with theorems settling the spec claims.

Modelling conventions:
* `AgentState` mirrors the Python `AgentState` TypedDict (total=False).  Fields
  that the code only ever reads through `dict.get` with a default are plain
  values whose default plays the role of "absent".  The two fields whose
  *presence* is tested (`iterations` via `"iterations" not in state`,
  `action_history` via `"not in state"`) are `Option`s, `none` meaning absent.
* External effects are oracles collected in `Env`:
  - `jsonParseReasoning` / `jsonParseFeedback` model `json.loads` applied to the
    text extracted from the fenced block, followed by the `.get(key, default)`
    field extraction the code performs.  `some d` means the parse succeeded and
    produced the given field values; `none` means an exception was raised
    anywhere in the parse (the `except` branch of the node runs).
  - `toolImpl name input` is the behaviour of the four registered tool bodies
    (`run_python`, `send_email`, `draft_email`, `search_web`), which perform
    external I/O.  `Except.ok r` is a returned string, `Except.error e` models
    the tool body raising an exception with message `e`.
  - `draftEmail` is `EmailManager.draft_email` (a total function: its body
    catches all of its own exceptions); its output is threaded into
    `draft_content` but never inspected by any property below.
* `action_node` is instrumented: besides the updated state it returns the list
  of tool invocations actually performed, so that "the stage does not execute
  the tool" is expressible as an empty invocation list.
* User interaction in the confirmation gate is modelled by `InputRes`
  (`ok` = the string `input()` returned, `interrupt` = KeyboardInterrupt,
  `err` = any other exception) and `ConfInputs`, the up-to-four reads the
  gate performs.
-/

namespace EnvAgent

/-- Character-list infix test (structural recursion, so that concrete
instances evaluate inside the kernel). -/
def listInfix (pat : List Char) : List Char → Bool
  | [] => pat.isPrefixOf []
  | c :: cs => pat.isPrefixOf (c :: cs) || listInfix pat cs

/-- Python's substring test `pat in s`. -/
def strContains (s pat : String) : Bool :=
  listInfix pat.data s.data

/-- Python's `str.lower()` (ASCII case folding, as used by the code). -/
def pyLower (s : String) : String :=
  ⟨s.data.map Char.toLower⟩

/-- Python's `str.strip()`: drop leading and trailing whitespace. -/
def pyStrip (s : String) : String :=
  ⟨((s.data.dropWhile Char.isWhitespace).reverse.dropWhile Char.isWhitespace).reverse⟩

/-- Python's `str.startswith(pre)`. -/
def pyStartsWith (s pre : String) : Bool :=
  pre.data.isPrefixOf s.data

/-- Python's `c in s` for a single character `c`. -/
def pyHasChar (s : String) (c : Char) : Bool :=
  s.data.contains c

/-- Mirror of the Python `AgentState` TypedDict. -/
structure AgentState where
  query : String := ""
  perception : String := ""
  plan : String := ""
  action_input : String := ""
  action_name : String := ""
  action_result : String := ""
  feedback : String := ""
  goal_met : Bool := false
  iterations : Option Nat := none
  max_iterations : Option Nat := none
  final_answer : String := ""
  next_step_needed : String := ""
  action_history : Option (List String) := none
  needs_confirmation : Bool := false
  user_confirmation : String := ""
  confirmation_pending : Bool := false
  draft_content : String := ""
deriving DecidableEq, Repr

/-- The keys of `HUMAN_CONFIRMATION_TOOLS` in `agent.py` (the sensitive-action
set): only `send_email`. -/
def HUMAN_CONFIRMATION_TOOLS : List String := ["send_email"]

/-- The tool registry keys built inside `action_node` (and again inside
`human_confirmation_node`). -/
def registryNames : List String :=
  ["run_python", "send_email", "draft_email", "search_web"]

/-- Field values extracted from a successfully parsed reasoning response
(`reasoning_data.get(...)` with default `""`). -/
structure ReasoningData where
  intent_analysis : String
  tool_reasoning : String
  action_name : String
  action_input : String
deriving DecidableEq, Repr

/-- Field values extracted from a successfully parsed feedback response
(`feedback_data.get(...)`; defaults `""` for texts and `False` for
`goal_met`). -/
structure FeedbackData where
  feedback : String
  goal_met : Bool
  next_step_needed : String
  final_answer : String
deriving DecidableEq, Repr

/-- Outcome of one call to Python's `input()`. -/
inductive InputRes where
  | ok (s : String)
  | interrupt
  | err (msg : String)
deriving DecidableEq, Repr

/-- The up-to-four `input()` reads `human_confirmation_node` can perform:
the choice prompt and, for the modify path, recipient, subject and body. -/
structure ConfInputs where
  choice : InputRes
  newTo : InputRes
  newSubject : InputRes
  newBody : InputRes
deriving DecidableEq, Repr

/-- Oracles for the external world: the reasoning engine's JSON payloads,
the tool bodies, and the email drafter. -/
structure Env where
  jsonParseReasoning : String → Option ReasoningData
  jsonParseFeedback : String → Option FeedbackData
  toolImpl : String → String → Except String String
  draftEmail : String → String

/-- Fenced-block extraction performed identically in `reasoning_node` and
`feedback_node`: prefer a ` ```json ` fence, then any ` ``` ` fence,
else use the raw text. -/
def extractFenced (resp : String) : String :=
  if strContains resp "```json" then
    pyStrip ((((resp.splitOn "```json").getD 1 "").splitOn "```").headD "")
  else if strContains resp "```" then
    pyStrip ((((resp.splitOn "```").getD 1 "").splitOn "```").headD "")
  else resp

/-- The completion phrases scanned for in the lowercased raw reasoning
response on parse failure. -/
def completionPhrases : List String :=
  ["task is complete", "already complete", "no action needed", "goal is met"]

/-- Parse-failure completion check of `reasoning_node`:
`any(phrase in response_lower for phrase in ...)`. -/
def containsCompletionPhrase (resp : String) : Bool :=
  completionPhrases.any (fun p => strContains (pyLower resp) p)

/-- Condition of the first fallback-routing branch of `reasoning_node`:
`"calculate" in query.lower() or any(op in query for op in [+,-,*,/,^])`. -/
def fallbackWantsCalc (query : String) : Bool :=
  strContains (pyLower query) "calculate" || pyHasChar query '+' ||
    pyHasChar query '-' || pyHasChar query '*' || pyHasChar query '/' ||
    pyHasChar query '^'

/-- `WorkflowNodes.perception_node`: initialize or increment `iterations`,
bail out on an empty query, take the search-result short cut when there is
meaningful prior context, otherwise store the engine's perception text
(`resp` is the text the reasoning engine returns for this call). -/
def perception_node (resp : String) (s : AgentState) : AgentState :=
  let s1 :=
    match s.iterations with
    | none => { s with iterations := some 0 }
    | some n => { s with iterations := some (n + 1) }
  if s1.query = "" then
    { s1 with perception := "No query provided" }
  else
    let hasMeaningfulContext :=
      s1.iterations.getD 0 > 0 ∧ s1.action_name ≠ "" ∧
        s1.action_result ≠ "" ∧ s1.feedback ≠ "" ∧ s1.goal_met = false
    if hasMeaningfulContext then
      if s1.action_name = "search_web" ∧
          strContains s1.action_result "Web Search Results" = true then
        { s1 with perception :=
            "Task completed: Successfully found information about \x27" ++
              s1.query ++
              "\x27 through web search. The search results provide comprehensive information that answers the user\x27s query." }
      else
        { s1 with perception := resp }
    else
      { s1 with perception := resp }

/-- `WorkflowNodes.reasoning_node`: initialize `action_history`, then either
use the parsed tool selection (setting the confirmation flags from membership
in the sensitive set and eagerly drafting for `send_email`), or — on parse
failure — short-circuit to completion when the raw response contains a
completion phrase, or apply deterministic fallback routing on the query. -/
def reasoning_node (env : Env) (resp : String) (s : AgentState) : AgentState :=
  let s0 :=
    if s.action_history = none then { s with action_history := some [] } else s
  match env.jsonParseReasoning (extractFenced resp) with
  | some d =>
    let s1 := { s0 with
      plan := "Intent: " ++ d.intent_analysis ++ "\nReasoning: " ++ d.tool_reasoning,
      action_name := d.action_name,
      action_input := d.action_input }
    let s2 :=
      if s1.action_name ≠ "" then
        { s1 with action_history := some (s1.action_history.getD [] ++ [s1.action_name]) }
      else s1
    if s2.action_name ∈ HUMAN_CONFIRMATION_TOOLS then
      let s3 := { s2 with needs_confirmation := true, confirmation_pending := true }
      if s3.action_name = "send_email" then
        { s3 with draft_content := env.draftEmail s3.action_input }
      else s3
    else
      { s2 with needs_confirmation := false, confirmation_pending := false }
  | none =>
    if containsCompletionPhrase resp then
      let s1 := { s0 with
        action_name := "", action_input := "",
        plan := "Task appears to be already complete based on previous results",
        needs_confirmation := false,
        goal_met := true }
      if s1.action_result ≠ "" then
        { s1 with final_answer := "Based on the previous results: " ++ s1.action_result }
      else
        { s1 with final_answer := "Task completed based on previous analysis" }
    else
      let s1 :=
        if fallbackWantsCalc s0.query then
          { s0 with action_name := "run_python", action_input := s0.query }
        else if strContains (pyLower s0.query) "email" then
          { s0 with action_name := "draft_email", action_input := s0.query }
        else
          { s0 with action_name := "search_web", action_input := s0.query }
      { s1 with plan := "Fallback reasoning due to parsing error",
                needs_confirmation := false }

/-- `WorkflowNodes.action_node`, instrumented with the list of tool
invocations it actually performs.  An empty `action_name` records a neutral
result; a pending confirmation without an affirmative `user_confirmation`
records the waiting message and performs nothing; otherwise the registry is
consulted, exceptions are converted to error text, and unknown names to an
unknown-action text. -/
def action_node (env : Env) (s : AgentState) :
    AgentState × List (String × String) :=
  if s.action_name = "" then
    ({ s with action_result := "Task completed - no action needed" }, [])
  else if s.needs_confirmation = true ∧
      s.user_confirmation ∉ (["y", "yes"] : List String) then
    ({ s with action_result := "Waiting for user confirmation" }, [])
  else if s.action_name ∈ registryNames then
    match env.toolImpl s.action_name s.action_input with
    | Except.ok r =>
      ({ s with action_result := r }, [(s.action_name, s.action_input)])
    | Except.error e =>
      ({ s with action_result := "Error executing " ++ s.action_name ++ ": " ++ e },
        [(s.action_name, s.action_input)])
  else
    ({ s with action_result := "Unknown action: " ++ s.action_name }, [])

/-- Successful-parse path of `feedback_node` (the body of its `try` block):
copy the verdict — next step only when the goal is unmet, final answer only
when it is met — then apply the iteration-ceiling override. -/
def feedbackParsed (d : FeedbackData) (maxIts : Nat) (s : AgentState) :
    AgentState :=
  let s1 := { s with feedback := d.feedback, goal_met := d.goal_met }
  let s2 :=
    if s1.goal_met = false then { s1 with next_step_needed := d.next_step_needed }
    else s1
  let s3 :=
    if s2.goal_met = true then { s2 with final_answer := d.final_answer }
    else s2
  if s3.iterations.getD 0 ≥ maxIts ∧ s3.goal_met = false then
    { s3 with
      final_answer :=
        "I wasn\x27t able to fully answer your question within the iteration limit (" ++
          toString maxIts ++ " iterations), but here\x27s what I found: " ++
          s3.action_result,
      goal_met := true }
  else s3

/-- Parse-failure path of `feedback_node` (the body of its `except` block):
the deterministic per-tool fallback, whose iteration-ceiling override lives
only in the final catch-all branch. -/
def feedbackFallback (resp : String) (maxIts : Nat) (s : AgentState) :
    AgentState :=
  if s.action_name = "run_python" ∧ s.action_result ≠ "" ∧
      pyStartsWith s.action_result "Error" = false then
    { s with feedback := "Successfully executed calculation",
             goal_met := true,
             final_answer :=
               "The answer to \x27" ++ s.query ++ "\x27 is: " ++ s.action_result }
  else if s.action_name = "search_web" ∧ s.action_result ≠ "" ∧
      strContains s.action_result "Web Search Results" = true then
    { s with feedback := "Successfully retrieved comprehensive web search results with detailed information",
             goal_met := true,
             final_answer := s.action_result }
  else if s.action_name = "draft_email" ∧ s.action_result ≠ "" ∧
      pyStartsWith s.action_result "Error" = false then
    { s with feedback := "Email draft created successfully, but not yet sent",
             goal_met := false,
             next_step_needed := "Review the draft and send the email if satisfied" }
  else if s.action_name = "send_email" ∧
      strContains (pyLower s.action_result) "successfully sent" = true then
    { s with feedback := "Email sent successfully",
             goal_met := true,
             final_answer := s.action_result }
  else
    let s1 := { s with feedback := resp, goal_met := false }
    if s1.iterations.getD 0 ≥ maxIts then
      { s1 with
        final_answer :=
          "I reached the iteration limit (" ++ toString maxIts ++
            " iterations), but here\x27s the detailed information I found:\n\n" ++
            s1.action_result,
        goal_met := true }
    else s1

/-- `WorkflowNodes.feedback_node`: parse the verdict and dispatch to the
successful-parse path or the parse-failure fallback. -/
def feedback_node (env : Env) (resp : String) (s : AgentState) : AgentState :=
  let maxIts := s.max_iterations.getD 5
  match env.jsonParseFeedback (extractFenced resp) with
  | some d => feedbackParsed d maxIts s
  | none => feedbackFallback resp maxIts s

/-- The modify sub-flow of `human_confirmation_node` for the email tool:
three further `input()` reads, a KeyboardInterrupt during them is caught by
the inner handler, any other exception (including one raised by the
unguarded `send_gmail` call) falls through to the node's outer
`except Exception` handler. -/
def modifyEmailFlow (env : Env) (inp : ConfInputs) (s : AgentState) : AgentState :=
  match inp.newTo with
  | InputRes.interrupt =>
    { s with action_result := "Modification cancelled", goal_met := true,
             final_answer := "Email modification was cancelled." }
  | InputRes.err e =>
    { s with action_result := "Error getting user confirmation: " ++ e,
             goal_met := true,
             final_answer := "Action was cancelled due to an error." }
  | InputRes.ok rawTo =>
    match inp.newSubject with
    | InputRes.interrupt =>
      { s with action_result := "Modification cancelled", goal_met := true,
               final_answer := "Email modification was cancelled." }
    | InputRes.err e =>
      { s with action_result := "Error getting user confirmation: " ++ e,
               goal_met := true,
               final_answer := "Action was cancelled due to an error." }
    | InputRes.ok rawSubject =>
      match inp.newBody with
      | InputRes.interrupt =>
        { s with action_result := "Modification cancelled", goal_met := true,
                 final_answer := "Email modification was cancelled." }
      | InputRes.err e =>
        { s with action_result := "Error getting user confirmation: " ++ e,
                 goal_met := true,
                 final_answer := "Action was cancelled due to an error." }
      | InputRes.ok rawBody =>
        let newTo := pyStrip rawTo
        if newTo ≠ "" then
          let modifiedInput :=
            "to:" ++ newTo ++ "|subject:" ++ pyStrip rawSubject ++
              "|body:" ++ pyStrip rawBody
          match env.toolImpl "send_email" modifiedInput with
          | Except.ok r =>
            { s with action_result := r, goal_met := true,
                     final_answer := "Modified email sent: " ++ r }
          | Except.error e =>
            { s with action_result := "Error getting user confirmation: " ++ e,
                     goal_met := true,
                     final_answer := "Action was cancelled due to an error." }
        else
          { s with action_result := "Modification cancelled - no email provided",
                   goal_met := true,
                   final_answer := "Email modification was cancelled." }

/-- `WorkflowNodes.human_confirmation_node`.  For a sensitive action:
confirm executes the pending tool, cancel / unrecognized input / interrupt /
input error record a cancellation, modify runs `modifyEmailFlow` for the
email tool (and does nothing for any other tool); every branch clears both
confirmation flags.  For a non-sensitive action only the flags are
cleared. -/
def human_confirmation_node (env : Env) (inp : ConfInputs) (s : AgentState) :
    AgentState :=
  if s.action_name ∈ HUMAN_CONFIRMATION_TOOLS then
    match inp.choice with
    | InputRes.interrupt =>
      { s with action_result := "Action cancelled by user", goal_met := true,
               final_answer := "Action was cancelled.",
               confirmation_pending := false, needs_confirmation := false }
    | InputRes.err e =>
      { s with action_result := "Error getting user confirmation: " ++ e,
               goal_met := true,
               final_answer := "Action was cancelled due to an error.",
               confirmation_pending := false, needs_confirmation := false }
    | InputRes.ok raw =>
      let u := pyLower (pyStrip raw)
      let s1 := { s with user_confirmation := u }
      if u ∈ (["y", "yes"] : List String) then
        let s2 :=
          if s1.action_name ∈ registryNames then
            match env.toolImpl s1.action_name s1.action_input with
            | Except.ok r =>
              { s1 with action_result := r, goal_met := true,
                        final_answer := "Action completed successfully: " ++ r }
            | Except.error e =>
              { s1 with
                  action_result := "Error executing " ++ s1.action_name ++ ": " ++ e,
                  goal_met := true,
                  final_answer := "Error occurred: " ++ e }
          else
            { s1 with action_result := "Unknown action: " ++ s1.action_name,
                      goal_met := true,
                      final_answer := "Error: Unknown action " ++ s1.action_name }
        { s2 with confirmation_pending := false, needs_confirmation := false }
      else if u ∈ (["n", "no"] : List String) then
        { s1 with action_result := "Action cancelled by user", goal_met := true,
                  final_answer := "Action was cancelled at your request.",
                  confirmation_pending := false, needs_confirmation := false }
      else if u ∈ (["m", "modify"] : List String) then
        let s2 :=
          if s1.action_name = "send_email" then modifyEmailFlow env inp s1 else s1
        { s2 with confirmation_pending := false, needs_confirmation := false }
      else
        { s1 with action_result := "Invalid confirmation input, action cancelled",
                  goal_met := true,
                  final_answer := "Action was cancelled due to invalid input.",
                  confirmation_pending := false, needs_confirmation := false }
  else
    { s with confirmation_pending := false, needs_confirmation := false }

/-- Result of `WorkflowRouting.should_continue`. -/
inductive Route where
  | toEnd
  | toPerception
deriving DecidableEq, Repr

/-- Result of `WorkflowRouting.should_confirm`. -/
inductive ConfRoute where
  | toGate
  | continueFlow
deriving DecidableEq, Repr

/-- `WorkflowRouting.should_continue`: end when the goal is met or the
iteration ceiling is reached, otherwise loop back to perception. -/
def should_continue (s : AgentState) : Route :=
  if s.goal_met = true ∨ s.iterations.getD 0 ≥ s.max_iterations.getD 5 then
    Route.toEnd
  else
    Route.toPerception

/-- `WorkflowRouting.should_confirm`: route to the confirmation gate exactly
when both confirmation flags are set. -/
def should_confirm (s : AgentState) : ConfRoute :=
  if s.needs_confirmation = true ∧ s.confirmation_pending = true then
    ConfRoute.toGate
  else
    ConfRoute.continueFlow

/-- The initial state built by `StructuredAgent.run_agent`. -/
def initialState (query : String) (maxIts : Nat) : AgentState :=
  { query := query, iterations := some 0, goal_met := false,
    max_iterations := some maxIts, needs_confirmation := false,
    confirmation_pending := false }

/-- Scripts for the external interactions of pass `k` of a run. -/
structure Oracle where
  percResp : Nat → String
  reasResp : Nat → String
  fbResp : Nat → String
  confInp : Nat → ConfInputs

/-- One pass of the compiled graph: perception, reasoning, action and
feedback in sequence (the graph edges between them are unconditional),
then the confirmation gate when `should_confirm` routes there. -/
def runStep (env : Env) (ora : Oracle) (k : Nat) (s : AgentState) : AgentState :=
  let s1 := perception_node (ora.percResp k) s
  let s2 := reasoning_node env (ora.reasResp k) s1
  let s3 := (action_node env s2).1
  let s4 := feedback_node env (ora.fbResp k) s3
  match should_confirm s4 with
  | ConfRoute.toGate => human_confirmation_node env (ora.confInp k) s4
  | ConfRoute.continueFlow => s4

/-- The driver loop of the compiled graph, with explicit fuel: run a pass,
then consult `should_continue`. -/
def runLoop (env : Env) (ora : Oracle) : Nat → Nat → AgentState → AgentState
  | 0, _, s => s
  | fuel + 1, k, s =>
    let s' := runStep env ora k s
    match should_continue s' with
    | Route.toEnd => s'
    | Route.toPerception => runLoop env ora fuel (k + 1) s'

/-- Number of passes (perception executions) the driver loop performs with
the given fuel. -/
def passCount (env : Env) (ora : Oracle) : Nat → Nat → AgentState → Nat
  | 0, _, _ => 0
  | fuel + 1, k, s =>
    let s' := runStep env ora k s
    match should_continue s' with
    | Route.toEnd => 1
    | Route.toPerception => 1 + passCount env ora fuel (k + 1) s'

/-- A trivial environment whose reasoning engine never parses and whose
tools always succeed; used to instantiate the universally quantified
theorems at concrete inputs. -/
def envTriv : Env :=
  { jsonParseReasoning := fun _ => none,
    jsonParseFeedback := fun _ => none,
    toolImpl := fun _ _ => Except.ok "ok",
    draftEmail := fun _ => "draft" }

/-- A confirmation-input script answering "n" to every prompt. -/
def confTriv : ConfInputs :=
  ⟨InputRes.ok "n", InputRes.ok "", InputRes.ok "", InputRes.ok ""⟩

/-- A trivial interaction script for the same purpose. -/
def oraTriv : Oracle :=
  { percResp := fun _ => "p", reasResp := fun _ => "r", fbResp := fun _ => "f",
    confInp := fun _ => confTriv }

/-- An environment whose tool bodies always raise. -/
def envErr : Env :=
  { jsonParseReasoning := fun _ => none, jsonParseFeedback := fun _ => none,
    toolImpl := fun _ _ => Except.error "boom", draftEmail := fun _ => "" }

/-- A state suspended on a sensitive action awaiting confirmation. -/
def stateC2 : AgentState :=
  { query := "Send an email to john", action_name := "send_email",
    action_input := "to:john@example.com|subject:Hi|body:Hello",
    needs_confirmation := true, confirmation_pending := true,
    iterations := some 2, max_iterations := some 5 }

/-- An environment whose reasoning payload never parses and whose feedback
payload always parses to a goal-not-met verdict (a perfectly ordinary
engine behaviour: valid feedback JSON with goal_met false). -/
def envReset : Env :=
  { jsonParseReasoning := fun _ => none,
    jsonParseFeedback := fun _ =>
      some { feedback := "the result does not answer the query",
             goal_met := false, next_step_needed := "search the web",
             final_answer := "" },
    toolImpl := fun _ _ => Except.ok "done", draftEmail := fun _ => "" }

/-- Pass 1 of a run of `envReset`, after Perception. -/
def stateC4a : AgentState :=
  perception_node "looking at the query" (initialState "hello" 6)

/-- The same pass after Reasoning: the response is unparseable and contains
the completion phrase "already complete", so the short-circuit fires. -/
def stateC4b : AgentState :=
  reasoning_node envReset "Everything is already complete." stateC4a

/-- The same pass after the Action stage (unconditional graph edge). -/
def stateC4c : AgentState := (action_node envReset stateC4b).1

/-- The same pass after the Feedback stage (unconditional graph edge). -/
def stateC4d : AgentState :=
  feedback_node envReset "the result is insufficient" stateC4c

/-- Pass 1 of another `envReset` run, after Perception. -/
def stateC6a : AgentState :=
  perception_node "first analysis" (initialState "tell me about lean" 5)

/-- The same pass after Reasoning: parse failure with the completion phrase
"task is complete" in the raw text, so the short-circuit fires. -/
def stateC6b : AgentState :=
  reasoning_node envReset "The task is complete." stateC6a

/-- The same pass after the Action stage. -/
def stateC6c : AgentState := (action_node envReset stateC6b).1

/-- The same pass after the Feedback stage. -/
def stateC6d : AgentState := feedback_node envReset "verdict" stateC6c

/-- An environment selecting `run_python` and reporting goal met with an
empty final_answer field (valid JSON in which `final_answer` is absent, so
`feedback_data.get("final_answer", "")` yields the empty string). -/
def envCalc : Env :=
  { jsonParseReasoning := fun _ =>
      some { intent_analysis := "user wants a calculation",
             tool_reasoning := "run_python handles arithmetic",
             action_name := "run_python", action_input := "2+2" },
    jsonParseFeedback := fun _ =>
      some { feedback := "the calculation answers the query", goal_met := true,
             next_step_needed := "", final_answer := "" },
    toolImpl := fun _ _ => Except.ok "4", draftEmail := fun _ => "" }

/-- The interaction script of the `envCalc` run. -/
def oraCalc : Oracle :=
  { percResp := fun _ => "analyze the arithmetic request",
    reasResp := fun _ => "use run_python", fbResp := fun _ => "goal met",
    confInp := fun _ => confTriv }

/-- The complete `envCalc` run from the `run_agent` initial state. -/
def stateC5run : AgentState :=
  runLoop envCalc oraCalc 5 0 (initialState "Calculate 2+2" 5)

/-- A Feedback-stage input on the final allowed pass: a successful email
draft, iterations at the ceiling, goal still unmet. -/
def stateC7 : AgentState :=
  { query := "Send an email to john", action_name := "draft_email",
    action_input := "to:john@example.com|subject:Hi|body:Hello",
    action_result := "EMAIL DRAFT prepared for john@example.com",
    feedback := "draft created", iterations := some 3, max_iterations := some 3,
    goal_met := false }

/-- The Feedback stage applied to `stateC7` with an unparseable verdict. -/
def stateC7res : AgentState := feedback_node envTriv "unparseable verdict" stateC7

/-- A state about to execute a registered tool. -/
def stateC9tool : AgentState :=
  { query := "Calculate 1/0", action_name := "run_python", action_input := "1/0" }

/-- A state whose selected action is not in the registry. -/
def stateC9unknown : AgentState :=
  { query := "fly", action_name := "fly_rocket", action_input := "to the moon" }

/-- A bare state carrying only a query, for the fallback-routing witness. -/
def stateC8 : AgentState := { query := "what is 2+2" }

/-- A state in which the goal has already been met. -/
def stateGoalMet : AgentState :=
  { query := "done", goal_met := true, final_answer := "all done",
    action_name := "send_email", iterations := some 1, max_iterations := some 5 }

end EnvAgent

namespace EnvAgent

/-! ### Field-preservation lemmas for the workflow nodes -/

theorem perception_node_iterations (resp : String) (s : AgentState) :
    (perception_node resp s).iterations =
      some (s.iterations.elim 0 (· + 1)) := by
  simp only [perception_node]
  cases hit : s.iterations <;> simp only [hit] <;> (repeat' split) <;> rfl

theorem perception_node_max (resp : String) (s : AgentState) :
    (perception_node resp s).max_iterations = s.max_iterations := by
  simp only [perception_node]
  cases hit : s.iterations <;> simp only [hit] <;> (repeat' split) <;> rfl

theorem reasoning_node_iterations (env : Env) (resp : String) (s : AgentState) :
    (reasoning_node env resp s).iterations = s.iterations := by
  simp only [reasoning_node]
  (repeat' split) <;> rfl

theorem reasoning_node_max (env : Env) (resp : String) (s : AgentState) :
    (reasoning_node env resp s).max_iterations = s.max_iterations := by
  simp only [reasoning_node]
  (repeat' split) <;> rfl

theorem action_node_iterations (env : Env) (s : AgentState) :
    (action_node env s).1.iterations = s.iterations := by
  simp only [action_node]
  (repeat' split) <;> rfl

theorem action_node_max (env : Env) (s : AgentState) :
    (action_node env s).1.max_iterations = s.max_iterations := by
  simp only [action_node]
  (repeat' split) <;> rfl

theorem feedbackParsed_iterations (d : FeedbackData) (maxIts : Nat)
    (s : AgentState) : (feedbackParsed d maxIts s).iterations = s.iterations := by
  simp only [feedbackParsed]
  (repeat' split) <;> rfl

theorem feedbackParsed_max (d : FeedbackData) (maxIts : Nat) (s : AgentState) :
    (feedbackParsed d maxIts s).max_iterations = s.max_iterations := by
  simp only [feedbackParsed]
  (repeat' split) <;> rfl

theorem feedbackFallback_iterations (resp : String) (maxIts : Nat)
    (s : AgentState) : (feedbackFallback resp maxIts s).iterations = s.iterations := by
  simp only [feedbackFallback]
  (repeat' split) <;> rfl

theorem feedbackFallback_max (resp : String) (maxIts : Nat) (s : AgentState) :
    (feedbackFallback resp maxIts s).max_iterations = s.max_iterations := by
  simp only [feedbackFallback]
  (repeat' split) <;> rfl

theorem feedback_node_iterations (env : Env) (resp : String) (s : AgentState) :
    (feedback_node env resp s).iterations = s.iterations := by
  simp only [feedback_node]
  split <;> simp [feedbackParsed_iterations, feedbackFallback_iterations]

theorem feedback_node_max (env : Env) (resp : String) (s : AgentState) :
    (feedback_node env resp s).max_iterations = s.max_iterations := by
  simp only [feedback_node]
  split <;> simp [feedbackParsed_max, feedbackFallback_max]

theorem modifyEmailFlow_iterations (env : Env) (inp : ConfInputs) (s : AgentState) :
    (modifyEmailFlow env inp s).iterations = s.iterations := by
  simp only [modifyEmailFlow]
  (repeat' split) <;> rfl

theorem modifyEmailFlow_max (env : Env) (inp : ConfInputs) (s : AgentState) :
    (modifyEmailFlow env inp s).max_iterations = s.max_iterations := by
  simp only [modifyEmailFlow]
  (repeat' split) <;> rfl

theorem human_confirmation_node_iterations (env : Env) (inp : ConfInputs)
    (s : AgentState) :
    (human_confirmation_node env inp s).iterations = s.iterations := by
  simp only [human_confirmation_node]
  (repeat' split) <;> simp [modifyEmailFlow_iterations]

theorem human_confirmation_node_max (env : Env) (inp : ConfInputs)
    (s : AgentState) :
    (human_confirmation_node env inp s).max_iterations = s.max_iterations := by
  simp only [human_confirmation_node]
  (repeat' split) <;> simp [modifyEmailFlow_max]

theorem runStep_iterations (env : Env) (ora : Oracle) (k : Nat) (s : AgentState)
    (n : Nat) (h : s.iterations = some n) :
    (runStep env ora k s).iterations = some (n + 1) := by
  simp only [runStep]
  split <;>
    simp [human_confirmation_node_iterations, feedback_node_iterations,
      action_node_iterations, reasoning_node_iterations,
      perception_node_iterations, h]

theorem runStep_max (env : Env) (ora : Oracle) (k : Nat) (s : AgentState) :
    (runStep env ora k s).max_iterations = s.max_iterations := by
  simp only [runStep]
  split <;>
    simp [human_confirmation_node_max, feedback_node_max, action_node_max,
      reasoning_node_max, perception_node_max]

theorem passCount_le (env : Env) (ora : Oracle) :
    ∀ (fuel k : Nat) (s : AgentState) (n m : Nat),
      s.iterations = some n → s.max_iterations = some m → n < m →
      passCount env ora fuel k s ≤ m - n := by
  intro fuel
  induction fuel with
  | zero => intro k s n m _ _ _; simp [passCount]
  | succ f ih =>
    intro k s n m hn hm hnm
    have hiter : (runStep env ora k s).iterations = some (n + 1) :=
      runStep_iterations env ora k s n hn
    have hmax : (runStep env ora k s).max_iterations = some m := by
      rw [runStep_max, hm]
    simp only [passCount]
    cases hc : should_continue (runStep env ora k s) with
    | toEnd => simp [hc]; omega
    | toPerception =>
      have hlt : n + 1 < m := by
        unfold should_continue at hc
        rw [hiter, hmax] at hc
        by_contra hge
        simp [Nat.le_of_not_lt hge] at hc
      have := ih (k + 1) (runStep env ora k s) (n + 1) m hiter hmax hlt
      simp only [hc]
      omega

/-! ### String helper -/

theorem append_ne_empty_left (s t : String) (h : s ≠ "") : s ++ t ≠ "" := by
  intro he
  apply h
  have hl := congrArg String.length he
  rw [String.length_append] at hl
  have h0 : s.length = 0 := by
    simpa using Nat.eq_zero_of_add_eq_zero_right hl
  cases s with
  | mk data =>
    cases data with
    | nil => rfl
    | cons a l => simp [String.length] at h0

/-! ### Claim C1 -/

/-- C1: every Perception pass increments `iterations` by exactly one;
`should_continue` routes back to Perception iff the goal is unmet and
`iterations` is below `max_iterations`; and from the `run_agent` initial
state the driver loop performs at most `max_iterations` Perception passes,
whatever the engine, the tools and the user do. -/
theorem C1_termination_and_router :
    (∀ (resp : String) (s : AgentState) (n : Nat), s.iterations = some n →
        (perception_node resp s).iterations = some (n + 1)) ∧
    (∀ s : AgentState, should_continue s = Route.toPerception ↔
        (s.goal_met = false ∧ s.iterations.getD 0 < s.max_iterations.getD 5)) ∧
    (∀ (env : Env) (ora : Oracle) (fuel : Nat) (q : String) (m : Nat), 0 < m →
        passCount env ora fuel 0 (initialState q m) ≤ m) := by
  refine ⟨?_, ?_, ?_⟩
  · intro resp s n h
    rw [perception_node_iterations, h]
    rfl
  · intro s
    unfold should_continue
    cases hg : s.goal_met with
    | true => simp [hg]
    | false =>
      simp only [hg]
      split <;> rename_i h <;> simp at h ⊢ <;> omega
  · intro env ora fuel q m hm
    have h := passCount_le env ora fuel 0 (initialState q m) 0 m rfl rfl hm
    simpa using h

/-- Closed instantiation of `C1_termination_and_router`. -/
theorem C1_termination_and_router_witness :
    (initialState "q" 2).iterations = some 0 ∧ (0 : Nat) < 2 ∧
    (perception_node "p" (initialState "q" 2)).iterations = some 1 ∧
    passCount envTriv oraTriv 10 0 (initialState "q" 2) ≤ 2 := by
  refine ⟨rfl, by decide, ?_, ?_⟩
  · exact C1_termination_and_router.1 "p" (initialState "q" 2) 0 rfl
  · exact C1_termination_and_router.2.2 envTriv oraTriv 10 "q" 2 (by decide)

/-! ### Claim C2 -/

/-- C2: when the selected action is sensitive (`needs_confirmation` set) and
no affirmative confirmation (`y`/`yes`) has been recorded, the Action stage
performs no tool invocation at all and returns the state unchanged except
for the waiting-for-confirmation result text. -/
theorem C2_no_confirmation_bypass (env : Env) (s : AgentState)
    (hs : s.action_name ∈ HUMAN_CONFIRMATION_TOOLS)
    (hn : s.needs_confirmation = true)
    (hu : s.user_confirmation ∉ (["y", "yes"] : List String)) :
    action_node env s =
      ({ s with action_result := "Waiting for user confirmation" }, []) := by
  have hname : s.action_name = "send_email" := by
    simpa [HUMAN_CONFIRMATION_TOOLS] using hs
  simp only [action_node]
  rw [if_neg (by simp [hname]), if_pos ⟨hn, hu⟩]

/-- Closed instantiation of `C2_no_confirmation_bypass`. -/
theorem C2_no_confirmation_bypass_witness :
    stateC2.action_name ∈ HUMAN_CONFIRMATION_TOOLS ∧
    stateC2.needs_confirmation = true ∧
    stateC2.user_confirmation ∉ (["y", "yes"] : List String) ∧
    action_node envErr stateC2 =
      ({ stateC2 with action_result := "Waiting for user confirmation" }, []) :=
  ⟨by decide, rfl, by decide,
    C2_no_confirmation_bypass envErr stateC2 (by decide) rfl (by decide)⟩

/-! ### Claim C9 -/

/-- C9: in the Action stage, a tool body that raises is caught and converted
to an error-text `action_result`, and an action name absent from the registry
yields an unknown-action text; in both cases the node changes nothing but
`action_result` (the node is a total function, so no exception escapes and
the loop proceeds to Feedback as usual). -/
theorem C9_action_error_handling (env : Env) (s : AgentState) (e : String)
    (hne : s.action_name ≠ "")
    (hnc : s.needs_confirmation = true →
      s.user_confirmation ∈ (["y", "yes"] : List String)) :
    (env.toolImpl s.action_name s.action_input = Except.error e →
        s.action_name ∈ registryNames →
        (action_node env s).1 =
          { s with action_result :=
              "Error executing " ++ s.action_name ++ ": " ++ e }) ∧
    (s.action_name ∉ registryNames →
        (action_node env s).1 =
          { s with action_result := "Unknown action: " ++ s.action_name }) := by
  have hnotwait : ¬(s.needs_confirmation = true ∧
      s.user_confirmation ∉ (["y", "yes"] : List String)) := by
    rintro ⟨h1, h2⟩
    exact h2 (hnc h1)
  constructor
  · intro htool hreg
    simp only [action_node]
    rw [if_neg hne, if_neg hnotwait, if_pos hreg, htool]
  · intro hnr
    simp only [action_node]
    rw [if_neg hne, if_neg hnotwait, if_neg hnr]

/-- Closed instantiation of `C9_action_error_handling` on both branches. -/
theorem C9_action_error_handling_witness :
    envErr.toolImpl stateC9tool.action_name stateC9tool.action_input =
      Except.error "boom" ∧
    stateC9tool.action_name ∈ registryNames ∧
    stateC9unknown.action_name ∉ registryNames ∧
    (action_node envErr stateC9tool).1 =
      { stateC9tool with action_result := "Error executing run_python: boom" } ∧
    (action_node envErr stateC9unknown).1 =
      { stateC9unknown with action_result := "Unknown action: fly_rocket" } :=
  ⟨rfl, by decide, by decide,
    (C9_action_error_handling envErr stateC9tool "boom" (by decide)
        (by intro h; exact absurd h (by decide))).1 rfl (by decide),
    (C9_action_error_handling envErr stateC9unknown "boom" (by decide)
        (by intro h; exact absurd h (by decide))).2 (by decide)⟩

/-! ### Claim C8 -/

/-- C8: on a parse failure whose raw text contains no completion phrase, the
Reasoning stage routes by keywords of the original query: calculation words
or arithmetic operators select `run_python` on the raw query, else the word
"email" selects `draft_email`, else `search_web`; in all cases
`needs_confirmation` is cleared and the plan records that fallback routing
was used. -/
theorem C8_fallback_routing (env : Env) (resp : String) (s : AgentState)
    (hp : env.jsonParseReasoning (extractFenced resp) = none)
    (hc : containsCompletionPhrase resp = false) :
    (fallbackWantsCalc s.query = true →
        (reasoning_node env resp s).action_name = "run_python" ∧
        (reasoning_node env resp s).action_input = s.query) ∧
    (fallbackWantsCalc s.query = false →
        strContains (pyLower s.query) "email" = true →
        (reasoning_node env resp s).action_name = "draft_email" ∧
        (reasoning_node env resp s).action_input = s.query) ∧
    (fallbackWantsCalc s.query = false →
        strContains (pyLower s.query) "email" = false →
        (reasoning_node env resp s).action_name = "search_web" ∧
        (reasoning_node env resp s).action_input = s.query) ∧
    (reasoning_node env resp s).needs_confirmation = false ∧
    (reasoning_node env resp s).plan = "Fallback reasoning due to parsing error" := by
  simp only [reasoning_node, hp, hc]
  (repeat' split) <;> simp_all

/-- Closed instantiation of `C8_fallback_routing` (Scenario 5: unparseable
response, query containing a `+`). -/
theorem C8_fallback_routing_witness :
    envTriv.jsonParseReasoning (extractFenced "garbled output") = none ∧
    containsCompletionPhrase "garbled output" = false ∧
    fallbackWantsCalc stateC8.query = true ∧
    (reasoning_node envTriv "garbled output" stateC8).action_name = "run_python" ∧
    (reasoning_node envTriv "garbled output" stateC8).action_input = stateC8.query ∧
    (reasoning_node envTriv "garbled output" stateC8).needs_confirmation = false :=
  ⟨rfl, by decide, by decide,
    ((C8_fallback_routing envTriv "garbled output" stateC8 rfl (by decide)).1
      (by decide)).1,
    ((C8_fallback_routing envTriv "garbled output" stateC8 rfl (by decide)).1
      (by decide)).2,
    (C8_fallback_routing envTriv "garbled output" stateC8 rfl (by decide)).2.2.2.1⟩

/-! ### Confirmation-gate master lemma -/

theorem gate_sensitive_resolves (env : Env) (inp : ConfInputs) (s : AgentState)
    (hs : s.action_name ∈ HUMAN_CONFIRMATION_TOOLS) :
    (human_confirmation_node env inp s).goal_met = true ∧
    (human_confirmation_node env inp s).final_answer ≠ "" ∧
    (human_confirmation_node env inp s).needs_confirmation = false ∧
    (human_confirmation_node env inp s).confirmation_pending = false := by
  have hname : s.action_name = "send_email" := by
    simpa [HUMAN_CONFIRMATION_TOOLS] using hs
  obtain ⟨choice, nt, nsub, nb⟩ := inp
  simp only [human_confirmation_node, modifyEmailFlow, if_pos hs]
  cases choice with
  | interrupt => exact ⟨rfl, by simp, rfl, rfl⟩
  | err e => exact ⟨rfl, by simp, rfl, rfl⟩
  | ok raw =>
    (repeat' split) <;> simp_all <;>
      exact append_ne_empty_left _ _ (by decide)

/-! ### Claim C3 -/

/-- C3: whatever the user answers at the Confirmation Gate on a pending
sensitive action — confirm, cancel, modify, unrecognized input, an interrupt
or an input error — the gate returns with `goal_met` true, so the router ends
the run on the same pass and Perception is never re-entered. -/
theorem C3_gate_always_terminal (env : Env) (inp : ConfInputs) (s : AgentState)
    (hs : s.action_name ∈ HUMAN_CONFIRMATION_TOOLS) :
    (human_confirmation_node env inp s).goal_met = true ∧
    should_continue (human_confirmation_node env inp s) = Route.toEnd := by
  have h := gate_sensitive_resolves env inp s hs
  refine ⟨h.1, ?_⟩
  unfold should_continue
  rw [if_pos (Or.inl h.1)]

/-- Closed instantiation of `C3_gate_always_terminal`. -/
theorem C3_gate_always_terminal_witness :
    stateC2.action_name ∈ HUMAN_CONFIRMATION_TOOLS ∧
    (human_confirmation_node envErr confTriv stateC2).goal_met = true ∧
    should_continue (human_confirmation_node envErr confTriv stateC2) =
      Route.toEnd :=
  ⟨by decide, (C3_gate_always_terminal envErr confTriv stateC2 (by decide)).1,
    (C3_gate_always_terminal envErr confTriv stateC2 (by decide)).2⟩

/-! ### Claim C10 -/

/-- C10: every branch of the Confirmation Gate on a sensitive pending action
clears both `needs_confirmation` and `confirmation_pending`, so
`should_confirm` can never route back into the gate for the same action. -/
theorem C10_gate_clears_confirmation_flags (env : Env) (inp : ConfInputs)
    (s : AgentState) (hs : s.action_name ∈ HUMAN_CONFIRMATION_TOOLS)
    (_hn : s.needs_confirmation = true) (_hp : s.confirmation_pending = true) :
    (human_confirmation_node env inp s).needs_confirmation = false ∧
    (human_confirmation_node env inp s).confirmation_pending = false ∧
    should_confirm (human_confirmation_node env inp s) =
      ConfRoute.continueFlow := by
  have h := gate_sensitive_resolves env inp s hs
  refine ⟨h.2.2.1, h.2.2.2, ?_⟩
  unfold should_confirm
  rw [if_neg]
  rintro ⟨h1, _⟩
  rw [h.2.2.1] at h1
  cases h1

/-- Closed instantiation of `C10_gate_clears_confirmation_flags`. -/
theorem C10_gate_clears_confirmation_flags_witness :
    stateC2.action_name ∈ HUMAN_CONFIRMATION_TOOLS ∧
    stateC2.needs_confirmation = true ∧ stateC2.confirmation_pending = true ∧
    (human_confirmation_node envTriv confTriv stateC2).needs_confirmation = false ∧
    (human_confirmation_node envTriv confTriv stateC2).confirmation_pending = false ∧
    should_confirm (human_confirmation_node envTriv confTriv stateC2) =
      ConfRoute.continueFlow :=
  ⟨by decide, rfl, rfl,
    (C10_gate_clears_confirmation_flags envTriv confTriv stateC2 (by decide) rfl rfl).1,
    (C10_gate_clears_confirmation_flags envTriv confTriv stateC2 (by decide) rfl rfl).2.1,
    (C10_gate_clears_confirmation_flags envTriv confTriv stateC2 (by decide) rfl rfl).2.2⟩

/-! ### Goal-flag preservation lemmas -/

theorem perception_node_goal (resp : String) (s : AgentState) :
    (perception_node resp s).goal_met = s.goal_met := by
  simp only [perception_node]
  cases hit : s.iterations <;> simp only [hit] <;> (repeat' split) <;> rfl

theorem action_node_goal (env : Env) (s : AgentState) :
    (action_node env s).1.goal_met = s.goal_met := by
  simp only [action_node]
  (repeat' split) <;> rfl

theorem reasoning_node_goal_true (env : Env) (resp : String) (s : AgentState)
    (h : s.goal_met = true) : (reasoning_node env resp s).goal_met = true := by
  simp only [reasoning_node]
  (repeat' split) <;> simp_all

theorem human_confirmation_node_goal_true (env : Env) (inp : ConfInputs)
    (s : AgentState) (h : s.goal_met = true) :
    (human_confirmation_node env inp s).goal_met = true := by
  by_cases hs : s.action_name ∈ HUMAN_CONFIRMATION_TOOLS
  · exact (gate_sensitive_resolves env inp s hs).1
  · simp only [human_confirmation_node, if_neg hs]
    exact h

/-! ### Claim C4 -/

/-- C4 counterexample: in a run of `envReset` (reasoning response
unparseable but containing "already complete", feedback verdict parsing to
goal-not-met), Reasoning sets `goal_met` to true and the Feedback stage of
the very same pass — reached through the unconditional graph edges — sets it
back to false. -/
theorem C4_goal_met_reset_cex :
    stateC4b.goal_met = true ∧ stateC4d.goal_met = false := by decide

/-- C4 amended: `goal_met`, once true, is preserved by Perception, Reasoning,
Action and the Confirmation Gate; only the Feedback stage can reset it (which
it does exactly when re-evaluating the pass on which Reasoning's completion
short-circuit set the flag). -/
theorem C4_goal_met_monotone_outside_feedback (env : Env) (r : String)
    (inp : ConfInputs) (s : AgentState) (h : s.goal_met = true) :
    (perception_node r s).goal_met = true ∧
    (reasoning_node env r s).goal_met = true ∧
    (action_node env s).1.goal_met = true ∧
    (human_confirmation_node env inp s).goal_met = true :=
  ⟨by rw [perception_node_goal]; exact h,
    reasoning_node_goal_true env r s h,
    by rw [action_node_goal]; exact h,
    human_confirmation_node_goal_true env inp s h⟩

/-- Closed instantiation of `C4_goal_met_monotone_outside_feedback`. -/
theorem C4_goal_met_monotone_outside_feedback_witness :
    stateGoalMet.goal_met = true ∧
    (perception_node "r" stateGoalMet).goal_met = true ∧
    (reasoning_node envTriv "r" stateGoalMet).goal_met = true ∧
    (action_node envTriv stateGoalMet).1.goal_met = true ∧
    (human_confirmation_node envTriv confTriv stateGoalMet).goal_met = true :=
  ⟨rfl,
    (C4_goal_met_monotone_outside_feedback envTriv "r" confTriv stateGoalMet rfl).1,
    (C4_goal_met_monotone_outside_feedback envTriv "r" confTriv stateGoalMet rfl).2.1,
    (C4_goal_met_monotone_outside_feedback envTriv "r" confTriv stateGoalMet rfl).2.2.1,
    (C4_goal_met_monotone_outside_feedback envTriv "r" confTriv stateGoalMet rfl).2.2.2⟩

/-! ### Claim C5 -/

/-- C5 counterexample: a complete run (from the `run_agent` initial state to
router termination) in which the feedback verdict parses with `goal_met`
true but without a `final_answer` field, ending with `goal_met` true and an
empty `final_answer`. -/
theorem C5_empty_final_answer_cex :
    stateC5run.goal_met = true ∧ stateC5run.final_answer = "" := by decide

/-- C5 amended: every site that sets `goal_met` to true supplies a non-empty
`final_answer` — Reasoning's completion short-circuit, every branch of the
Feedback parse-failure fallback including its ceiling override, the
successful-parse ceiling override, and every branch of the Confirmation
Gate — except the Feedback successful-parse goal-met branch, which copies
the engine's `final_answer` field verbatim and hence is empty exactly when
the engine omits the field alongside its goal-met verdict. -/
theorem C5_final_answer_nonempty_amended :
    (∀ (env : Env) (r : String) (s : AgentState), s.goal_met = false →
        (reasoning_node env r s).goal_met = true →
        (reasoning_node env r s).final_answer ≠ "") ∧
    (∀ (env : Env) (r : String) (s : AgentState),
        env.jsonParseFeedback (extractFenced r) = none →
        (feedback_node env r s).goal_met = true →
        (feedback_node env r s).final_answer ≠ "") ∧
    (∀ (env : Env) (r : String) (s : AgentState) (d : FeedbackData),
        env.jsonParseFeedback (extractFenced r) = some d →
        d.goal_met = true →
        (feedback_node env r s).goal_met = true ∧
        (feedback_node env r s).final_answer = d.final_answer) ∧
    (∀ (env : Env) (r : String) (s : AgentState) (d : FeedbackData),
        env.jsonParseFeedback (extractFenced r) = some d →
        d.goal_met = false →
        (feedback_node env r s).goal_met = true →
        (feedback_node env r s).final_answer ≠ "") ∧
    (∀ (env : Env) (inp : ConfInputs) (s : AgentState),
        s.action_name ∈ HUMAN_CONFIRMATION_TOOLS →
        (human_confirmation_node env inp s).final_answer ≠ "") := by
  refine ⟨?_, ?_, ?_, ?_, ?_⟩
  · intro env r s h0 h1
    revert h1
    simp only [reasoning_node]
    rcases hp : env.jsonParseReasoning (extractFenced r) with _ | d
    · cases hc : containsCompletionPhrase r
      · (repeat' split) <;> intro h1 <;> simp_all
      · (repeat' split) <;> intro h1 <;>
          first
            | ((repeat' apply append_ne_empty_left) <;> decide)
            | decide
            | simp_all
    · (repeat' split) <;> intro h1 <;> simp_all
  · intro env r s hp h1
    revert h1
    simp only [feedback_node, feedbackFallback, hp]
    by_cases h1c : s.action_name = "run_python" ∧ s.action_result ≠ "" ∧
        pyStartsWith s.action_result "Error" = false
    · rw [if_pos h1c]
      intro _
      (repeat' apply append_ne_empty_left) <;> decide
    · rw [if_neg h1c]
      by_cases h2c : s.action_name = "search_web" ∧ s.action_result ≠ "" ∧
          strContains s.action_result "Web Search Results" = true
      · rw [if_pos h2c]
        intro _
        exact h2c.2.1
      · rw [if_neg h2c]
        by_cases h3c : s.action_name = "draft_email" ∧ s.action_result ≠ "" ∧
            pyStartsWith s.action_result "Error" = false
        · rw [if_pos h3c]
          intro h1
          simp at h1
        · rw [if_neg h3c]
          by_cases h4c : s.action_name = "send_email" ∧
              strContains (pyLower s.action_result) "successfully sent" = true
          · rw [if_pos h4c]
            intro _ he
            have he2 : s.action_result = "" := he
            rw [he2] at h4c
            exact absurd h4c.2 (by decide)
          · rw [if_neg h4c]
            split
            · intro _
              (repeat' apply append_ne_empty_left) <;> decide
            · intro h1
              simp at h1
  · intro env r s d hp hd
    simp [feedback_node, feedbackParsed, hp, hd]
  · intro env r s d hp hd h1
    revert h1
    simp only [feedback_node, feedbackParsed, hp]
    (repeat' split) <;> intro h1 <;>
      first
        | ((repeat' apply append_ne_empty_left) <;> decide)
        | simp_all
  · intro env inp s hs
    exact (gate_sensitive_resolves env inp s hs).2.1

/-- Closed instantiation of `C5_final_answer_nonempty_amended` on the
Reasoning short-circuit conjunct, the parsed-path ceiling-override conjunct
(engine verdict with `goal_met` false and an omitted `final_answer`, state
at the iteration ceiling) and the Confirmation Gate conjunct. -/
theorem C5_final_answer_nonempty_amended_witness :
    (initialState "x" 5).goal_met = false ∧
    (reasoning_node envTriv "the task is complete" (initialState "x" 5)).goal_met
      = true ∧
    (reasoning_node envTriv "the task is complete" (initialState "x" 5)).final_answer
      ≠ "" ∧
    (feedback_node envReset "verdict text" stateC7).goal_met = true ∧
    (feedback_node envReset "verdict text" stateC7).final_answer ≠ "" ∧
    (human_confirmation_node envTriv confTriv stateC2).final_answer ≠ "" :=
  ⟨rfl, by decide,
    C5_final_answer_nonempty_amended.1 envTriv "the task is complete"
      (initialState "x" 5) rfl (by decide),
    by decide,
    C5_final_answer_nonempty_amended.2.2.2.1 envReset "verdict text" stateC7
      { feedback := "the result does not answer the query", goal_met := false,
        next_step_needed := "search the web", final_answer := "" } rfl rfl
      (by decide),
    C5_final_answer_nonempty_amended.2.2.2.2 envTriv confTriv stateC2 (by decide)⟩

/-! ### Claim C6 -/

/-- C6: on a parse failure whose raw text contains a completion phrase,
Reasoning does set `goal_met` true with a final answer derived from the last
action result and clears the action — but the Action and Feedback stages are
NOT skipped: the graph edges are unconditional, so Action still runs
(overwriting `action_result` with the no-action text) and Feedback still
re-evaluates `goal_met`, here back to false.  Evaluated on pass 1 of a
concrete `envReset` run. -/
theorem C6_short_circuit_stages_still_run :
    stateC6b.goal_met = true ∧
    stateC6b.final_answer = "Task completed based on previous analysis" ∧
    stateC6b.action_name = "" ∧
    stateC6c.action_result = "Task completed - no action needed" ∧
    stateC6d.goal_met = false := by decide

/-! ### Claim C7 -/

/-- C7: a Feedback pass at the iteration ceiling with a still-unmet goal is
NOT always forced to `goal_met` true: in the parse-failure fallback, the
ceiling override sits only in the final catch-all branch, so a successful
`draft_email` result at the ceiling leaves `goal_met` false and
`final_answer` empty, and the router then ends the run silently. -/
theorem C7_ceiling_override_missing_on_draft_fallback :
    stateC7.iterations.getD 0 ≥ stateC7.max_iterations.getD 5 ∧
    stateC7.goal_met = false ∧
    envTriv.jsonParseFeedback (extractFenced "unparseable verdict") = none ∧
    stateC7res.goal_met = false ∧
    stateC7res.final_answer = "" ∧
    should_continue stateC7res = Route.toEnd := by decide
